import Mathlib

/-!
Verification development for the beeswax-node-client repository: a shallow
embedding, in Lean, of the client's authentication lifecycle, its axios
response interceptor, the generic resource CRUD layer (find / query /
queryAll and the per-resource request-body normalizations), and the
campaign macro operations (createFullCampaign, cloneCampaign,
bulkUpdateCampaignStatus, bulkCreateLineItems, getCampaignPerformance).

Modelling conventions, used throughout:
* A settled JavaScript promise is `Except JsError A`: `.ok` is resolution,
  `.error` is rejection. Remote-call outcomes are supplied by an
  environment (oracle), one outcome per remote call, indexed by the order
  the calls are issued in (the code awaits every call before the next one).
* JavaScript numbers are modelled as rationals, strings as `String`,
  absent (`undefined`) or `null` object fields as `none`. (The code never
  branches on the difference between `undefined` and `null` in the parts
  embedded here.)
* JavaScript truthiness is modelled explicitly where the code relies on
  it: `""` and `0` and `false` and absence are falsy; objects and arrays
  (modelled as `some _`) are always truthy.
* `setTimeout`-based delays (`delay(50)`, `delay(100)`) only suspend; they
  never reject and have no observable effect in this model.
-/

namespace Beeswax

/-- A thrown JavaScript value, as the catch blocks of the client see it:
its `message` property and its `JSON.stringify` rendering. `JSON.stringify`
of a genuine `Error` object is the empty object. -/
structure JsError where
  message : String
  json : String
deriving Repr, DecidableEq

/-- `new Error(msg)` as thrown by the client code: `JSON.stringify` of an
`Error` renders as an empty JSON object (its properties are not enumerable). -/
def mkError (msg : String) : JsError :=
  { message := msg, json := "\x7b\x7d" }

/-- `error.toString()` for an `Error` object. -/
def JsError.toStr (e : JsError) : String :=
  "Error: " ++ e.message

/-- A settled promise: resolved value or rejected value. -/
abbrev JsPromise (α : Type) := Except JsError α

/-- The response envelope shared by every Beeswax API reply and by the
client's structured (non-thrown) failure objects:
`{success, payload?, code?, message?, errors?}` (src/types, BeeswaxResponse). -/
structure BResponse (α : Type) where
  success : Bool
  payload : Option α := none
  code : Option Nat := none
  message : Option String := none
  errors : Option (List String) := none
deriving Repr, DecidableEq

/-- JavaScript truthiness of an optional string: `undefined` and `""` are falsy. -/
def strTruthy : Option String → Bool
  | none => false
  | some s => s ≠ ""

/-- JavaScript truthiness of an optional number: `undefined` and `0` are falsy. -/
def numTruthy : Option ℚ → Bool
  | none => false
  | some q => q ≠ 0

/-- JavaScript truthiness of an optional boolean: `undefined` and `false` are falsy. -/
def boolTruthy : Option Bool → Bool
  | none => false
  | some b => b

/-- `a || b` on two optional strings (the result may itself be absent). -/
def jsOrStr (a b : Option String) : Option String :=
  if strTruthy a then a else b

/-- `a || d` on an optional string with a present default. -/
def jsOrStrD (a : Option String) (d : String) : String :=
  if strTruthy a then a.getD d else d

/-- `a || b` on two optional numbers. -/
def jsOrNum (a b : Option ℚ) : Option ℚ :=
  if numTruthy a then a else b

/-- `a || d` on an optional number with a present default. -/
def jsOrNumD (a : Option ℚ) (d : ℚ) : ℚ :=
  if numTruthy a then a.getD d else d

/-- `String(x)` on a number, as used to fill `spend_budget.lifetime`.
The exact digit rendering is irrelevant to every claim. -/
def jsNumToString (q : ℚ) : String :=
  toString q

/-! ## Session manager (BeeswaxClient.authenticate)

The client holds `private authPromise?: Promise<void>`. `authenticate()`
reads:

    if (this.authPromise) { return this.authPromise; }
    this.authPromise = this.performAuthentication();
    try { await this.authPromise; } finally { this.authPromise = undefined; }

There is no suspension point between the check of `authPromise` and its
assignment, so in the single-threaded JS scheduling model the
check-then-set pair is atomic; `performAuthentication` issues exactly one
`POST /rest/authenticate`. We embed the client's authentication state as a
transition system: a `call` step is one invocation of `authenticate()`
running its synchronous prefix, and a `settle` step is the in-flight
attempt settling (resolving or rejecting) together with the `finally`
clause of the caller that started it. -/

/-- Authentication state of one `BeeswaxClient` instance: the stored
in-flight attempt handle (if any), the number of `POST /rest/authenticate`
network calls issued so far, and a counter supplying fresh attempt handles. -/
structure AuthState where
  authPromise : Option Nat
  loginCalls : Nat
  nextHandle : Nat
deriving Repr, DecidableEq

/-- A freshly constructed client: no attempt in flight, no login call made. -/
def AuthState.start : AuthState :=
  { authPromise := none, loginCalls := 0, nextHandle := 0 }

/-- One invocation of `authenticate()` up to its first suspension point:
if an attempt is stored, the caller receives that same handle and nothing
else changes; otherwise `performAuthentication()` starts (one login
network call) and its handle is stored and returned. -/
def authenticateCall (s : AuthState) : AuthState × Nat :=
  match s.authPromise with
  | some p => (s, p)
  | none =>
      ({ authPromise := some s.nextHandle
         loginCalls := s.loginCalls + 1
         nextHandle := s.nextHandle + 1 }, s.nextHandle)

/-- The in-flight attempt settles — resolving (`ok = true`) or rejecting
(`ok = false`) — and the `finally` clause clears the stored handle. The
clearing does not depend on `ok`. -/
def authenticateSettle (s : AuthState) (_ok : Bool) : AuthState :=
  { s with authPromise := none }

/-- `n` invocations of `authenticate()` with no settlement in between
(concurrent callers); returns the final state and each caller's handle. -/
def runAuthCalls : AuthState → Nat → AuthState × List Nat
  | s, 0 => (s, [])
  | s, n + 1 =>
      let (s', h) := authenticateCall s
      let (s'', hs) := runAuthCalls s' n
      (s'', h :: hs)

/-! ## Transport interceptor (BeeswaxClient.setupInterceptors)

The axios response-error interceptor reads:

    if (error.response?.status === 401 && !error.config._retry) {
      error.config._retry = true;
      await this.authenticate();
      return this.axiosInstance(error.config);
    }
    return Promise.reject(error);

We embed one logical request as a function of the network outcomes of its
successive attempts (`outcomes i` is attempt `i`). `attemptRetried` is the
interceptor's behaviour once `config._retry` is already set: every error,
401 included, is surfaced. -/

/-- Outcome of one HTTP attempt: a 2xx body, or an error response carrying
its HTTP status and body. -/
inductive HttpOutcome (α : Type) where
  | ok (data : α)
  | err (status : Nat) (body : α)
deriving Repr, DecidableEq

/-- Result of one logical request after the interceptor is done:
the value surfaced to the caller (resolution, or rejection with status and
body), how many `authenticate()` calls the interceptor made, and how many
network attempts were spent. -/
structure AttemptResult (α : Type) where
  result : Except (Nat × α) α
  authCalls : Nat
  attempts : Nat
deriving Repr

/-- An attempt whose config already carries `_retry = true`: the 401 branch
of the interceptor is not taken again, so every error is surfaced as a
rejection. -/
def attemptRetried {α : Type} (o : HttpOutcome α) : AttemptResult α :=
  match o with
  | .ok d => { result := .ok d, authCalls := 0, attempts := 1 }
  | .err st b => { result := .error (st, b), authCalls := 0, attempts := 1 }

/-- One logical request through the interceptor, starting with
`_retry` unset: a 401 triggers one `authenticate()` and one replay of the
same config (now with `_retry` set); any other error — and any error of the
replay — is surfaced. -/
def runRequest {α : Type} (outcomes : Nat → HttpOutcome α) : AttemptResult α :=
  match outcomes 0 with
  | .ok d => { result := .ok d, authCalls := 0, attempts := 1 }
  | .err st b =>
      if st = 401 then
        let r := attemptRetried (outcomes 1)
        { result := r.result, authCalls := r.authCalls + 1, attempts := r.attempts + 1 }
      else
        { result := .error (st, b), authCalls := 0, attempts := 1 }

/-! ## BaseResource.queryAll

    async queryAll(body) {
      const results = []; const batchSize = 50; let offset = 0;
      while (true) {
        const queryBody = { ...body, rows: batchSize, offset, sort_by: this.idField };
        const response = await this.client.request('GET', this.endpoint, { body: queryBody });
        const batch = response.payload || [];
        results.push(...batch);
        if (batch.length < batchSize) break;
        offset += batchSize;
      }
      return { success: true, payload: results };
    }
-/

/-- One page request issued by `queryAll`: the varying fields of the query
body `{...body, rows: 50, offset, sort_by: this.idField}`. The caller's
filter fields ride along unchanged in every request. -/
structure PageRequest where
  rows : Nat
  offset : Nat
  sort_by : String
deriving Repr, DecidableEq

/-- The fixed page size of `queryAll`. -/
def batchSize : Nat := 50

/-- The `while (true)` loop of `queryAll`, driven by the server's reply for
each offset: `server off` is `response.payload || []` for the page
requested at offset `off`. `fuel` bounds the iterations; `none` means the
loop had not terminated when the fuel ran out. Returns the requests issued
in order together with the accumulated records. -/
def queryAllLoop {α : Type} (server : Nat → List α) (idField : String) :
    Nat → Nat → Option (List PageRequest × List α)
  | 0, _ => none
  | fuel + 1, offset =>
      let req : PageRequest := { rows := batchSize, offset := offset, sort_by := idField }
      let batch := server offset
      if batch.length < batchSize then
        some ([req], batch)
      else
        match queryAllLoop server idField fuel (offset + batchSize) with
        | none => none
        | some (reqs, rest) => some (req :: reqs, batch ++ rest)

/-- `BaseResource.queryAll`: pages from offset 0 and wraps the accumulated
records in `{success: true, payload: results}`. -/
def queryAll {α : Type} (server : Nat → List α) (idField : String) (fuel : Nat) :
    Option (List PageRequest × BResponse (List α)) :=
  (queryAllLoop server idField fuel 0).map
    (fun r => (r.1, { success := true, payload := some r.2 }))

/-! ## BaseResource.find and query

    async find(id) {
      const body = {}; body[this.idField] = id;
      const response = await this.client.request('GET', this.endpoint, { body });
      return { success: true, payload: response.payload?.[0] };
    }

    async query(body) {
      const response = await this.client.request('GET', this.endpoint, { body: body || {} });
      return { success: true, payload: response.payload || [] };
    }
-/

/-- `BaseResource.find`: `env` is the transport (`client.request`): it
receives the endpoint and the query body `{[idField]: id}` and either
rejects (a thrown error) or resolves with the response envelope.
`response.payload?.[0]` is the head of the payload list when present. -/
def BaseResource.find {ι τ : Type} (endpoint idField : String) (id : ι)
    (env : String → List (String × ι) → JsPromise (BResponse (List τ))) :
    JsPromise (BResponse τ) :=
  match env endpoint [(idField, id)] with
  | .error e => .error e
  | .ok resp => .ok { success := true, payload := (resp.payload.getD []).head? }

/-- `BaseResource.query`, as a function of the outcome of its one
`client.request` call: on resolution the payload is defaulted to `[]`;
a rejection propagates. -/
def BaseResource.query {τ : Type} (request : JsPromise (BResponse (List τ))) :
    JsPromise (BResponse (List τ)) :=
  match request with
  | .error e => .error e
  | .ok resp => .ok { success := true, payload := some (resp.payload.getD []) }

/-! ## TargetingTemplateResource (deprecated resource) -/

/-- The deprecation message of the targeting-template resource. -/
def ttDeprecationMessage : String :=
  "Targeting templates are deprecated. Please use targeting expressions API directly."

/-- `TargetingTemplateResource.create`: returns the structured deprecation
response immediately, without issuing any network call (so it can never
throw), whatever the body. -/
def TargetingTemplateResource.create {β τ : Type} (_body : β) : JsPromise (BResponse τ) :=
  .ok { success := false, message := some ttDeprecationMessage, code := some 410 }

/-- `TargetingTemplateResource.query`: tries `super.query`; if that throws
(the underlying request rejected), resolves with
`{success: true, payload: [], message}` instead of throwing. -/
def TargetingTemplateResource.query {τ : Type}
    (request : JsPromise (BResponse (List τ))) : JsPromise (BResponse (List τ)) :=
  match BaseResource.query request with
  | .error _e =>
      .ok { success := true, payload := some [], message := some ttDeprecationMessage }
  | .ok r => .ok r

/-! ## CreativeResource.create body shaping -/

/-- A JavaScript value that is either a string or a number: the creative
`type` / `creative_type` field accepts both shapes. -/
inductive JsVal where
  | str (s : String)
  | num (q : ℚ)
deriving Repr, DecidableEq

/-- A creative object / request body: the fields `CreativeResource.create`
reads or writes, plus the fields the campaign macro fills in. Attribute
objects ride along untouched; their contents never matter to any claim, so
they are modelled by a bare tag. -/
structure CreativeObj where
  creative_id : Option ℚ := none
  advertiser_id : Option ℚ := none
  name : Option String := none
  creative_name : Option String := none
  type : Option JsVal := none
  creative_type : Option JsVal := none
  attributes : Option Nat := none
  creative_attributes : Option Nat := none
  creative_template_id : Option ℚ := none
  width : Option ℚ := none
  height : Option ℚ := none
  click_url : Option String := none
  secure : Option Bool := none
  active : Option Bool := none
  creative_asset_id : Option ℚ := none
deriving Repr, DecidableEq

/-- JavaScript's `String.prototype.toLowerCase`, modelled as lowercasing
each code point (which is what it does on the ASCII strings involved). -/
def jsToLower (s : String) : String :=
  String.mk (s.data.map Char.toLower)

/-- The string-to-numeric-code table of `CreativeResource.create`
(`typeMap`), looked up on the lowercased string. -/
def creativeTypeMap : String → Option ℚ
  | "display" => some 0
  | "banner" => some 0
  | "video" => some 1
  | "native" => some 2
  | _ => none

/-- The body shaping of `CreativeResource.create`, run before
`super.create`: the name and attribute aliases collapse onto the legacy
keys; `typeValue` is `creative_type` if defined, else `type`; a string
`typeValue` maps through `typeMap` on its lowercasing, unrecognized
strings passing through unchanged; the value is stored under
`creative_type` and the `type` alias deleted. -/
def creativeCreateBody (body : CreativeObj) : CreativeObj :=
  let d := body
  let d := if strTruthy body.name || strTruthy body.creative_name then
      { d with creative_name := jsOrStr body.creative_name body.name, name := none }
    else d
  let typeValue : Option JsVal :=
    match body.creative_type with
    | some v => some v
    | none => body.type
  let d := match typeValue with
    | none => d
    | some tv =>
        let tv' := match tv with
          | .str s =>
              match creativeTypeMap (jsToLower s) with
              | some n => JsVal.num n
              | none => JsVal.str s
          | .num q => JsVal.num q
        { d with creative_type := some tv', type := none }
  let d := if body.attributes.isSome || body.creative_attributes.isSome then
      { d with
          creative_attributes :=
            if body.creative_attributes.isSome then body.creative_attributes
            else body.attributes,
          attributes := none }
    else d
  d

/-! ## Campaign and line-item objects with their body shaping -/

/-- A campaign object / request body: every field the client reads, writes
or strips. Absent fields are `none`. -/
structure CampaignObj where
  campaign_id : Option ℚ := none
  advertiser_id : Option ℚ := none
  name : Option String := none
  campaign_name : Option String := none
  budget : Option ℚ := none
  campaign_budget : Option ℚ := none
  budget_type : Option ℚ := none
  start_date : Option String := none
  end_date : Option String := none
  active : Option Bool := none
  currency : Option String := none
  created_date : Option String := none
  updated_date : Option String := none
  create_date : Option String := none
  update_date : Option String := none
  push_status : Option ℚ := none
  push_update : Option Bool := none
  campaign_spend : Option ℚ := none
  buzz_key : Option String := none
  last_active : Option String := none
deriving Repr, DecidableEq

/-- The destructuring at the top of `cloneCampaign`: the server-owned /
read-only campaign fields are split off and only the rest is reused. -/
def stripCampaignReadOnly (c : CampaignObj) : CampaignObj :=
  { c with
      campaign_id := none, created_date := none, updated_date := none,
      create_date := none, update_date := none, push_status := none,
      push_update := none, campaign_spend := none, buzz_key := none,
      last_active := none }

/-- The body shaping of `CampaignResource.create` (run before
`super.create`): `budget_type` defaults to 2 when undefined; the
`name`/`campaign_name` aliases collapse onto `campaign_name` — taking
`body.campaign_name || body.name` — with `name` deleted; the
`budget`/`campaign_budget` aliases collapse onto `campaign_budget` —
taking `campaign_budget` when defined, else `budget` — with `budget`
deleted. -/
def campaignCreateBody (body : CampaignObj) : CampaignObj :=
  let d := { body with budget_type := some (body.budget_type.getD 2) }
  let d := if strTruthy body.name || strTruthy body.campaign_name then
      { d with campaign_name := jsOrStr body.campaign_name body.name, name := none }
    else d
  let d := if body.budget.isSome || body.campaign_budget.isSome then
      { d with
          campaign_budget :=
            if body.campaign_budget.isSome then body.campaign_budget else body.budget,
          budget := none }
    else d
  d

/-- The `spend_budget` sub-object of a v2 line item. -/
structure SpendBudget where
  lifetime : Option String := none
  daily : Option String := none
  include_fees : Option Bool := none
deriving Repr, DecidableEq

/-- The default `spend_budget` structure `LineItemResource.create` fills in
when none is provided: `{lifetime: null, daily: null, include_fees: true}`. -/
def v2DefaultSpendBudget : SpendBudget :=
  { lifetime := none, daily := none, include_fees := some true }

/-- The bidding configuration the client builds (v2 shape):
`{strategy, values: {cpm_bid}, pacing, custom, bid_shading_control}`;
`cpm_bid` stands for `values.cpm_bid`. -/
structure BiddingObj where
  strategy : Option String := none
  cpm_bid : Option ℚ := none
  pacing : Option String := none
  custom : Option Bool := none
  bid_shading_control : Option String := none
deriving Repr, DecidableEq

/-- A line-item object / request body: every field the client reads,
writes or strips. Targeting and frequency-cap objects ride along
untouched, so they are modelled by bare tags. -/
structure LineItemObj where
  line_item_id : Option ℚ := none
  id : Option ℚ := none
  campaign_id : Option ℚ := none
  advertiser_id : Option ℚ := none
  name : Option String := none
  line_item_name : Option String := none
  type : Option String := none
  line_item_type : Option String := none
  budget : Option ℚ := none
  line_item_budget : Option ℚ := none
  budget_type : Option String := none
  spend_budget : Option SpendBudget := none
  bidding : Option BiddingObj := none
  frequency_caps : Option String := none
  targeting : Option String := none
  targeting_expression_id : Option ℚ := none
  start_date : Option String := none
  end_date : Option String := none
  active : Option Bool := none
  guaranteed : Option Bool := none
  currency : Option String := none
  created_date : Option String := none
  updated_date : Option String := none
  create_date : Option String := none
  update_date : Option String := none
  push_status : Option ℚ := none
  push_update : Option Bool := none
  line_item_spend : Option ℚ := none
  line_item_impressions : Option ℚ := none
  buzz_key : Option String := none
  last_active : Option String := none
  line_item_version : Option ℚ := none
  has_skad_assignment : Option Bool := none
  account_id : Option ℚ := none
deriving Repr, DecidableEq

/-- The destructuring inside `cloneCampaign`'s line-item loop: the
server-owned / read-only line-item fields are split off and only the rest
is reused. -/
def stripLineItemReadOnly (li : LineItemObj) : LineItemObj :=
  { li with
      line_item_id := none, created_date := none, updated_date := none,
      create_date := none, update_date := none, push_status := none,
      push_update := none, line_item_spend := none,
      line_item_impressions := none, buzz_key := none, last_active := none,
      line_item_version := none, has_skad_assignment := none,
      account_id := none }

/-- The body shaping of `LineItemResource.create` for the v2 endpoint:
legacy `line_item_*` aliases move to the new keys when those are unset,
`type` defaults to banner, `id` is set to null and `line_item_id` removed,
and `spend_budget` gets its default structure when missing.
(`frequency_caps` is set to null when falsy — null and absent coincide in
this model, so that assignment is a no-op here.) -/
def lineItemCreateBody (body : LineItemObj) : LineItemObj :=
  let d := body
  let d := if strTruthy body.line_item_name && !(strTruthy d.name) then
      { d with name := body.line_item_name, line_item_name := none }
    else d
  let d := if strTruthy body.line_item_type && !(strTruthy d.type) then
      { d with type := body.line_item_type, line_item_type := none }
    else d
  let d := if body.line_item_budget.isSome && !(numTruthy d.budget) then
      { d with budget := body.line_item_budget, line_item_budget := none }
    else d
  let d := if !(strTruthy d.type) then { d with type := some "banner" } else d
  let d := { d with id := none, line_item_id := none }
  let d := if d.spend_budget.isSome then d
    else { d with spend_budget := some v2DefaultSpendBudget }
  d

/-- The shape of a reply from the v2 line-item creation endpoint: either
the created object directly, or an envelope. -/
inductive V2Resp where
  | direct (li : LineItemObj)
  | wrapped (r : BResponse LineItemObj)
deriving Repr, DecidableEq

/-- `JSON.stringify` of a v2 reply, used only inside the fallback error
message; no claim inspects it. -/
def jsonStringifyV2 (_r : V2Resp) : String :=
  "<response-json>"

/-- How `LineItemResource.create` interprets the v2 reply: a direct object
with a truthy `id` is wrapped as success with `line_item_id` mapped back
from `id`; an envelope (its `success` field defined) is passed through;
anything else yields the unexpected-format failure. -/
def lineItemCreateHandleResponse (resp : V2Resp) : BResponse LineItemObj :=
  match resp with
  | .direct li =>
      if numTruthy li.id then
        { success := true, payload := some { li with line_item_id := li.id } }
      else
        { success := false, message := some "Unexpected response format",
          errors := some [jsonStringifyV2 resp] }
  | .wrapped r => r

/-- A creative–line-item association object. -/
structure CLIObj where
  cli_id : Option ℚ := none
  creative_id : Option ℚ := none
  line_item_id : Option ℚ := none
  active : Option Bool := none
  weighting : Option ℚ := none
deriving Repr, DecidableEq

/-- A targeting-template object. -/
structure TTObj where
  targeting_template_id : Option ℚ := none
  advertiser_id : Option ℚ := none
  targeting_template_name : Option String := none
  targeting : Option String := none
  active : Option Bool := none
deriving Repr, DecidableEq

/-- The creative asset returned by `uploadCreativeAsset` (only its id is
read by the macros). -/
structure AssetObj where
  creative_asset_id : Option ℚ := none
deriving Repr, DecidableEq

/-- A report request body (`getCampaignPerformance`); `filters` holds only
a `campaign_id`, kept here as `filters_campaign_id`. -/
structure ReportObj where
  advertiser_id : Option ℚ := none
  report_name : Option String := none
  report_type : Option String := none
  dimensions : List String := []
  metrics : List String := []
  filters_campaign_id : Option ℚ := none
  start_date : Option String := none
  end_date : Option String := none
deriving Repr, DecidableEq

/-- `FullCampaignResponse`: the aggregate a full-campaign macro returns. -/
structure FullResp where
  campaign : CampaignObj
  line_items : List LineItemObj := []
  creatives : List CreativeObj := []
  creative_line_items : List CLIObj := []
  targeting_templates : List TTObj := []
deriving Repr, DecidableEq

/-! ## The remote-call environment

The macros await one Resource Client / client-helper call at a time; we
supply each call's outcome through an oracle indexed by the call's position
in the sequence (its tick). Each call site interprets the outcome at its
tick; a `threw` outcome is the call rejecting, and an outcome of the wrong
shape is treated as a rejection too (it cannot arise from the real client). -/

/-- The outcome the environment assigns to one remote call. -/
inductive CallOutcome where
  | threw (e : JsError)
  | campaignResp (r : BResponse CampaignObj)
  | lineItemListResp (r : BResponse (List LineItemObj))
  | v2Resp (r : V2Resp)
  | cliListResp (r : BResponse (List CLIObj))
  | cliResp (r : BResponse CLIObj)
  | creativeResp (r : BResponse CreativeObj)
  | assetResp (a : AssetObj)
  | reportResp (r : BResponse ReportObj)
deriving Repr, DecidableEq

/-- The oracle: the outcome of the `t`-th remote call. -/
abbrev Env := Nat → CallOutcome

/-- A record of one outbound call, as the macros issue them: which
operation and the body it was given (after the per-resource shaping). -/
inductive CallRecord where
  | campaignFind (id : ℚ)
  | campaignCreate (body : CampaignObj)
  | campaignEdit (id : ℚ) (active : Bool)
  | lineItemsQuery (campaign_id : ℚ)
  | lineItemCreateV2 (body : LineItemObj)
  | cliQuery (line_item_id : Option ℚ)
  | cliCreate (body : CLIObj)
  | creativeCreate (body : CreativeObj)
  | assetUpload (advertiser_id : ℚ) (sourceUrl : String) (name : Option String)
  | reportCreate (body : ReportObj)
deriving Repr, DecidableEq

/-- The calls a run issued, in order. -/
abbrev Trace := List CallRecord

/-- The running state after part of a macro: its result (or the error
thrown so far), the next tick, and the calls issued. -/
abbrev Step (α : Type) := Except JsError α × Nat × Trace

/-- The rejection produced when the oracle's outcome has the wrong shape
for the call site (impossible against the real client). -/
def envMismatch : JsError :=
  { message := "unexpected response shape", json := "\x7b\x7d" }

/-- Interpret an outcome as a campaign response. -/
def asCampaign : CallOutcome → JsPromise (BResponse CampaignObj)
  | .threw e => .error e
  | .campaignResp r => .ok r
  | _ => .error envMismatch

/-- Interpret an outcome as a line-item list response. -/
def asLineItemList : CallOutcome → JsPromise (BResponse (List LineItemObj))
  | .threw e => .error e
  | .lineItemListResp r => .ok r
  | _ => .error envMismatch

/-- Interpret an outcome as a v2 line-item creation reply. -/
def asV2 : CallOutcome → JsPromise V2Resp
  | .threw e => .error e
  | .v2Resp r => .ok r
  | _ => .error envMismatch

/-- Interpret an outcome as a creative–line-item list response. -/
def asCLIList : CallOutcome → JsPromise (BResponse (List CLIObj))
  | .threw e => .error e
  | .cliListResp r => .ok r
  | _ => .error envMismatch

/-- Interpret an outcome as a creative–line-item response. -/
def asCLI : CallOutcome → JsPromise (BResponse CLIObj)
  | .threw e => .error e
  | .cliResp r => .ok r
  | _ => .error envMismatch

/-- Interpret an outcome as a creative response. -/
def asCreative : CallOutcome → JsPromise (BResponse CreativeObj)
  | .threw e => .error e
  | .creativeResp r => .ok r
  | _ => .error envMismatch

/-- Interpret an outcome as an uploaded creative asset. -/
def asAsset : CallOutcome → JsPromise AssetObj
  | .threw e => .error e
  | .assetResp a => .ok a
  | _ => .error envMismatch

/-- Interpret an outcome as a report response. -/
def asReport : CallOutcome → JsPromise (BResponse ReportObj)
  | .threw e => .error e
  | .reportResp r => .ok r
  | _ => .error envMismatch

/-- Issue one remote call: consumes the tick's outcome and records the
call. -/
def remoteCall {α : Type} (env : Env) (t : Nat) (rec : CallRecord)
    (interp : CallOutcome → JsPromise α) : Step α :=
  (interp (env t), t + 1, [rec])

/-- `this.client.campaigns.find(id)` as the macros see it. -/
def campaignsFind (env : Env) (t : Nat) (id : ℚ) : Step (BResponse CampaignObj) :=
  remoteCall env t (.campaignFind id) asCampaign

/-- `this.client.campaigns.create(body)`: the `CampaignResource.create`
shaping runs first, then the request (whose create-then-hydrate behaviour
lives behind the oracle). -/
def campaignsCreate (env : Env) (t : Nat) (body : CampaignObj) : Step (BResponse CampaignObj) :=
  remoteCall env t (.campaignCreate (campaignCreateBody body)) asCampaign

/-- `this.client.lineItems.query({campaign_id})`. -/
def lineItemsQueryCall (env : Env) (t : Nat) (cid : ℚ) : Step (BResponse (List LineItemObj)) :=
  remoteCall env t (.lineItemsQuery cid) asLineItemList

/-- `this.client.lineItems.create(body)`: the v2 body shaping runs first,
then the POST to `/rest/v2/line-items`; the reply is normalized by
`lineItemCreateHandleResponse`. A thrown request propagates. -/
def lineItemsCreate (env : Env) (t : Nat) (body : LineItemObj) : Step (BResponse LineItemObj) :=
  match remoteCall env t (.lineItemCreateV2 (lineItemCreateBody body)) asV2 with
  | (.error e, t', tr) => (.error e, t', tr)
  | (.ok v2, t', tr) => (.ok (lineItemCreateHandleResponse v2), t', tr)

/-- `this.client.creativeLineItems.query({line_item_id})`. -/
def creativeLineItemsQuery (env : Env) (t : Nat) (liid : Option ℚ) :
    Step (BResponse (List CLIObj)) :=
  remoteCall env t (.cliQuery liid) asCLIList

/-- `this.client.creativeLineItems.create(body)`. -/
def creativeLineItemsCreate (env : Env) (t : Nat) (body : CLIObj) : Step (BResponse CLIObj) :=
  remoteCall env t (.cliCreate body) asCLI

/-- `this.client.creatives.create(body)`: the `CreativeResource.create`
shaping runs first. -/
def creativesCreate (env : Env) (t : Nat) (body : CreativeObj) : Step (BResponse CreativeObj) :=
  remoteCall env t (.creativeCreate (creativeCreateBody body)) asCreative

/-- `this.client.uploadCreativeAsset(...)`: its several internal requests
are one oracle call here; it resolves to the asset object or throws. -/
def uploadCreativeAssetCall (env : Env) (t : Nat) (aid : ℚ) (url : String)
    (nm : Option String) : Step AssetObj :=
  remoteCall env t (.assetUpload aid url nm) asAsset

/-- `this.client.reports.create(body)`. -/
def reportsCreate (env : Env) (t : Nat) (body : ReportObj) : Step (BResponse ReportObj) :=
  remoteCall env t (.reportCreate body) asReport

/-! ## BeeswaxClient.createLineItem (the line-item helper) -/

/-- The parameter record of `BeeswaxClient.createLineItem`. The catch-all
extra-field passthrough of the source carries `targeting` and
`targeting_expression_id`; the remaining fields are handled explicitly. -/
structure CreateLineItemParams where
  campaign_id : ℚ
  name : Option String := none
  line_item_name : Option String := none
  type : Option String := none
  budget : Option ℚ := none
  line_item_budget : Option ℚ := none
  spend_budget : Option SpendBudget := none
  bidding : Option BiddingObj := none
  cpm_bid : Option ℚ := none
  frequency_caps : Option String := none
  start_date : Option String := none
  end_date : Option String := none
  targeting_expression_id : Option ℚ := none
  targeting : Option String := none
  active : Option Bool := none
  guaranteed : Option Bool := none
  currency : Option String := none
  budget_type : Option String := none
deriving Repr, DecidableEq

/-- `BeeswaxClient.createLineItem`: fetches the campaign (throwing
`Campaign not found` when the lookup is unsuccessful or empty), builds the
line-item body with campaign-inherited defaults, and hands it to
`lineItems.create`. -/
def createLineItem (env : Env) (t : Nat) (params : CreateLineItemParams) :
    Step (BResponse LineItemObj) :=
  match campaignsFind env t params.campaign_id with
  | (.error e, t', tr) => (.error e, t', tr)
  | (.ok resp, t', tr) =>
      match resp.success, resp.payload with
      | true, some campaign =>
          let lineItemData : LineItemObj := {
            advertiser_id := campaign.advertiser_id
            campaign_id := some params.campaign_id
            name := jsOrStr params.name params.line_item_name
            type := some (jsOrStrD params.type "banner")
            guaranteed := some (params.guaranteed.getD false)
            currency := some (jsOrStrD params.currency (jsOrStrD campaign.currency "USD"))
            budget_type := some (jsOrStrD params.budget_type "spend including vendor fees")
            spend_budget := some (params.spend_budget.getD
              { lifetime := some (jsNumToString
                  (jsOrNumD params.budget (jsOrNumD params.line_item_budget 0)))
                include_fees := some true })
            bidding := some (params.bidding.getD
              { strategy := some "CPM", cpm_bid := some (jsOrNumD params.cpm_bid 3)
                pacing := some "none", custom := some false
                bid_shading_control := some "normal" })
            start_date := jsOrStr params.start_date campaign.start_date
            end_date := jsOrStr params.end_date campaign.end_date
            active := some (params.active.getD false)
            frequency_caps := params.frequency_caps
            targeting := params.targeting
            targeting_expression_id := params.targeting_expression_id }
          match lineItemsCreate env t' lineItemData with
          | (res, t'', tr') => (res, t'', tr ++ tr')
      | _, _ => (.error (mkError "Campaign not found"), t', tr)

/-! ## CampaignMacros.bulkUpdateCampaignStatus -/

/-- Whether the outcome of one `campaigns.edit` call counts as a
successful edit: a resolved response with `success` true. A thrown call —
or an impossible outcome shape, which the call site also surfaces as a
throw — is a failure. -/
def editSucceeded : CallOutcome → Bool
  | .campaignResp r => r.success
  | _ => false

/-- The id loop of `bulkUpdateCampaignStatus`: each id gets one
`campaigns.edit(id, {active})` wrapped in try/catch — a resolved
successful response bumps `updated`, anything else bumps `failed` — and
the loop never stops early (`delay(50)` only suspends). -/
def bulkUpdateLoop (env : Env) (active : Bool) :
    List ℚ → Nat → Nat → Nat → (Nat × Nat) × Nat × Trace
  | [], updated, failed, t => ((updated, failed), t, [])
  | id :: rest, updated, failed, t =>
      let (u, f) :=
        match asCampaign (env t) with
        | .ok resp => if resp.success then (updated + 1, failed) else (updated, failed + 1)
        | .error _ => (updated, failed + 1)
      match bulkUpdateLoop env active rest u f (t + 1) with
      | (counts, t', tr) => (counts, t', CallRecord.campaignEdit id active :: tr)

/-- `CampaignMacros.bulkUpdateCampaignStatus`: runs the loop and always
resolves with `{success: true, payload: {updated, failed}}`. -/
def bulkUpdateCampaignStatus (ids : List ℚ) (active : Bool) (env : Env) :
    JsPromise (BResponse (Nat × Nat)) × Nat × Trace :=
  match bulkUpdateLoop env active ids 0 0 0 with
  | ((updated, failed), t, tr) =>
      (.ok { success := true, payload := some (updated, failed) }, t, tr)

/-! ## CampaignMacros.bulkCreateLineItems -/

/-- One entry of the `lineItems` argument of `bulkCreateLineItems`. -/
structure BulkLineItemSpec where
  name : String
  budget : ℚ
  bid_price : ℚ
  targeting : Option String := none
deriving Repr, DecidableEq

/-- The item loop of `bulkCreateLineItems`: each item is attempted through
`createLineItem` inside try/catch; a resolved successful response with a
payload is collected, any other outcome appends an error string; the loop
never stops early. -/
def bulkCreateLoop (env : Env) (cid : ℚ) :
    List BulkLineItemSpec → Nat → List LineItemObj → List String →
      (List LineItemObj × List String) × Nat × Trace
  | [], t, created, errs => ((created, errs), t, [])
  | item :: rest, t, created, errs =>
      let params : CreateLineItemParams := {
        campaign_id := cid
        name := some item.name
        type := some "banner"
        budget_type := some "spend including vendor fees"
        spend_budget := some { lifetime := some (jsNumToString item.budget)
                               include_fees := some true }
        bidding := some { strategy := some "CPM"
                          cpm_bid := some (jsOrNumD (some item.bid_price) 3)
                          pacing := some "none", custom := some false
                          bid_shading_control := some "normal" }
        targeting := item.targeting
        active := some false }
      match createLineItem env t params with
      | (.error e, t', tr) =>
          match bulkCreateLoop env cid rest t' created
              (errs ++ ["Error creating line item " ++ item.name ++ ": " ++ e.message]) with
          | (res, t'', tr') => (res, t'', tr ++ tr')
      | (.ok resp, t', tr) =>
          let acc :=
            if resp.success && resp.payload.isSome then
              (created ++ resp.payload.toList, errs)
            else
              (created, errs ++ ["Failed to create line item: " ++ item.name])
          match bulkCreateLoop env cid rest t' acc.1 acc.2 with
          | (res, t'', tr') => (res, t'', tr ++ tr')

/-- `CampaignMacros.bulkCreateLineItems`: looks the campaign up first —
without any try/catch, so a thrown lookup rejects the whole macro — then
attempts every item, and resolves with success iff no per-item error was
recorded. -/
def bulkCreateLineItems (cid : ℚ) (items : List BulkLineItemSpec) (env : Env) :
    JsPromise (BResponse (List LineItemObj)) × Nat × Trace :=
  match campaignsFind env 0 cid with
  | (.error e, t, tr) => (.error e, t, tr)
  | (.ok resp, t, tr) =>
      if resp.success && resp.payload.isSome then
        match bulkCreateLoop env cid items t [] [] with
        | ((created, errs), t', tr') =>
            (.ok { success := errs.isEmpty, payload := some created,
                   errors := if errs.isEmpty then none else some errs }, t', tr ++ tr')
      else
        (.ok { success := false, message := some "Campaign not found" }, t, tr)

/-! ## CampaignMacros.getCampaignPerformance -/

/-- `CampaignMacros.getCampaignPerformance`: builds the report request,
runs `reports.create` and returns its response; a thrown error is caught
and converted into the structured failure. -/
def getCampaignPerformance (cid : ℚ) (startDate endDate : String) (env : Env) :
    JsPromise (BResponse ReportObj) × Nat × Trace :=
  let reportData : ReportObj := {
    advertiser_id := some 0
    report_name := some ("Campaign " ++ jsNumToString cid ++ " Performance")
    report_type := some "campaign_performance"
    dimensions := ["campaign_id", "date"]
    metrics := ["impressions", "clicks", "conversions", "spend"]
    filters_campaign_id := some cid
    start_date := some startDate
    end_date := some endDate }
  match reportsCreate env 0 reportData with
  | (.ok r, t, tr) => (.ok r, t, tr)
  | (.error e, t, tr) =>
      (.ok { success := false
             message := some (jsOrStrD (some e.message) "Failed to get campaign performance")
             errors := some [e.toStr] }, t, tr)

/-! ## CampaignMacros.cloneCampaign -/

/-- The options record of `cloneCampaign`. -/
structure CloneOpts where
  start_date : Option String := none
  end_date : Option String := none
  budget_multiplier : Option ℚ := none
  clone_creatives : Option Bool := none
  clone_targeting : Option Bool := none
deriving Repr, DecidableEq

/-- The association loop inside `cloneCampaign`: each source association
is recreated (same creative id and weighting) against the new line item;
an association is skipped when the new line item's id is falsy; only
resolved successful creations are collected; a thrown creation aborts the
macro body. -/
def cloneCliLoop (env : Env) (newLineItemId : Option ℚ) :
    List CLIObj → Nat → Step (List CLIObj)
  | [], t => (.ok [], t, [])
  | cli :: rest, t =>
      if !(numTruthy newLineItemId) then
        cloneCliLoop env newLineItemId rest t
      else
        let newCliData : CLIObj := {
          creative_id := cli.creative_id
          line_item_id := newLineItemId
          active := cli.active
          weighting := cli.weighting }
        match creativeLineItemsCreate env t newCliData with
        | (.error e, t', tr) => (.error e, t', tr)
        | (.ok r, t', tr) =>
            let pushed := if r.success && r.payload.isSome then r.payload.toList else []
            match cloneCliLoop env newLineItemId rest t' with
            | (.error e, t'', tr') => (.error e, t'', tr ++ tr')
            | (.ok more, t'', tr') => (.ok (pushed ++ more), t'', tr ++ tr')

/-- The line-item loop inside `cloneCampaign`: each source line item is
stripped of read-only fields, re-pointed at the new campaign, its budget
multiplied when a truthy multiplier was given, and created; on a resolved
successful creation the clone is collected and (unless `clone_creatives`
is explicitly false) its source associations are fetched and recreated;
an unsuccessful creation is skipped; `delay(100)` only suspends. -/
def cloneLineItemLoop (env : Env) (newCampaignId : Option ℚ) (m : Option ℚ)
    (cloneCreatives : Bool) :
    List LineItemObj → Nat → Step (List LineItemObj × List CLIObj)
  | [], t => (.ok ([], []), t, [])
  | li :: rest, t =>
      let base := { stripLineItemReadOnly li with campaign_id := newCampaignId }
      let newLineItemData := if numTruthy m then
          { base with line_item_budget := some ((li.line_item_budget.getD 0) * m.getD 0) }
        else base
      match lineItemsCreate env t newLineItemData with
      | (.error e, t', tr) => (.error e, t', tr)
      | (.ok resp, t', tr) =>
          match resp.success, resp.payload with
          | true, some newLi =>
              let cliStep : Step (List CLIObj) :=
                if cloneCreatives then
                  match creativeLineItemsQuery env t' li.line_item_id with
                  | (.error e, t2, tr2) => (.error e, t2, tr2)
                  | (.ok cliResp, t2, tr2) =>
                      if cliResp.success && cliResp.payload.isSome then
                        match cloneCliLoop env newLi.line_item_id (cliResp.payload.getD []) t2 with
                        | (res, t3, tr3) => (res, t3, tr2 ++ tr3)
                      else (.ok [], t2, tr2)
                else (.ok [], t', [])
              match cliStep with
              | (.error e, t2, tr2) => (.error e, t2, tr ++ tr2)
              | (.ok clis, t2, tr2) =>
                  match cloneLineItemLoop env newCampaignId m cloneCreatives rest t2 with
                  | (.error e, t3, tr3) => (.error e, t3, tr ++ tr2 ++ tr3)
                  | (.ok (lis, clis'), t3, tr3) =>
                      (.ok (newLi :: lis, clis ++ clis'), t3, tr ++ tr2 ++ tr3)
          | _, _ =>
              match cloneLineItemLoop env newCampaignId m cloneCreatives rest t' with
              | (res, t'', tr') => (res, t'', tr ++ tr')

/-- The try-block body of `cloneCampaign`: fetch the source campaign
(throwing when not found), strip its read-only fields, apply the new name,
the date overrides and the budget multiplier, create the new campaign
(throwing on failure or a missing id), then fetch and clone the source
line items. -/
def cloneCampaignBody (cid : ℚ) (newName : String) (o : CloneOpts) (env : Env) :
    Step (BResponse FullResp) :=
  match campaignsFind env 0 cid with
  | (.error e, t, tr) => (.error e, t, tr)
  | (.ok resp, t, tr) =>
      match resp.success, resp.payload with
      | true, some originalCampaign =>
          let d := { stripCampaignReadOnly originalCampaign with name := some newName }
          let d := if strTruthy o.start_date then { d with start_date := o.start_date } else d
          let d := if strTruthy o.end_date then { d with end_date := o.end_date } else d
          let multipliedBudget :=
            (originalCampaign.campaign_budget.getD 0) * o.budget_multiplier.getD 0
          let newCampaignData := if numTruthy o.budget_multiplier then
              { d with campaign_budget := some multipliedBudget }
            else d
          match campaignsCreate env t newCampaignData with
          | (.error e, t1, tr1) => (.error e, t1, tr ++ tr1)
          | (.ok resp2, t1, tr1) =>
              match resp2.success, resp2.payload with
              | true, some newCampaign =>
                  if !(numTruthy newCampaign.campaign_id) then
                    (.error (mkError "New campaign ID not returned from API"), t1, tr ++ tr1)
                  else
                    let cloneCreatives :=
                      match o.clone_creatives with
                      | some false => false
                      | _ => true
                    match lineItemsQueryCall env t1 cid with
                    | (.error e, t2, tr2) => (.error e, t2, tr ++ tr1 ++ tr2)
                    | (.ok liResp, t2, tr2) =>
                        if liResp.success && liResp.payload.isSome then
                          match cloneLineItemLoop env newCampaign.campaign_id
                              o.budget_multiplier cloneCreatives (liResp.payload.getD []) t2 with
                          | (.error e, t3, tr3) => (.error e, t3, tr ++ tr1 ++ tr2 ++ tr3)
                          | (.ok (lis, clis), t3, tr3) =>
                              (.ok { success := true
                                     payload := some { campaign := newCampaign
                                                       line_items := lis
                                                       creative_line_items := clis } },
                               t3, tr ++ tr1 ++ tr2 ++ tr3)
                        else
                          (.ok { success := true
                                 payload := some { campaign := newCampaign } },
                           t2, tr ++ tr1 ++ tr2)
              | _, _ => (.error (mkError "Failed to create new campaign"), t1, tr ++ tr1)
      | _, _ => (.error (mkError "Campaign not found"), t, tr)

/-- `CampaignMacros.cloneCampaign`: the body inside try/catch — a thrown
error becomes the structured `{success: false, message, errors}` failure. -/
def cloneCampaign (cid : ℚ) (newName : String) (o : CloneOpts) (env : Env) :
    JsPromise (BResponse FullResp) × Nat × Trace :=
  match cloneCampaignBody cid newName o env with
  | (.ok r, t, tr) => (.ok r, t, tr)
  | (.error e, t, tr) =>
      (.ok { success := false
             message := some (jsOrStrD (some e.message) "Failed to clone campaign")
             errors := some [e.json] }, t, tr)

/-! ## CampaignMacros.createFullCampaign -/

/-- One creative specification inside `CampaignCreationOptions`. -/
structure CreativeOpts where
  name : Option String := none
  creative_name : Option String := none
  type : Option String := none
  creative_type : Option String := none
  creative_template_id : Option ℚ := none
  width : Option ℚ := none
  height : Option ℚ := none
  click_url : Option String := none
  attributes : Option Nat := none
  creative_attributes : Option Nat := none
  asset_url : Option String := none
deriving Repr, DecidableEq

/-- One line-item specification inside `CampaignCreationOptions`. -/
structure LineItemOpts where
  name : Option String := none
  line_item_name : Option String := none
  type : Option String := none
  guaranteed : Option Bool := none
  currency : Option String := none
  budget_type : Option String := none
  budget : Option ℚ := none
  line_item_budget : Option ℚ := none
  spend_budget : Option SpendBudget := none
  bidding : Option BiddingObj := none
  bid_price : Option ℚ := none
  frequency_caps : Option String := none
  targeting : Option String := none
  targeting_expression_id : Option ℚ := none
  start_date : Option String := none
  end_date : Option String := none
  active : Option Bool := none
  creatives : Option (List CreativeOpts) := none
deriving Repr, DecidableEq

/-- One targeting-template specification inside `CampaignCreationOptions`. -/
structure TTOpts where
  targeting_template_name : Option String := none
  targeting : Option String := none
deriving Repr, DecidableEq

/-- `CampaignCreationOptions`. -/
structure CampaignOpts where
  advertiser_id : ℚ
  name : Option String := none
  campaign_name : Option String := none
  budget : Option ℚ := none
  campaign_budget : Option ℚ := none
  budget_type : Option ℚ := none
  start_date : Option String := none
  end_date : Option String := none
  line_items : List LineItemOpts := []
  targeting_templates : Option (List TTOpts) := none
deriving Repr, DecidableEq

/-- The targeting-template loop of `createFullCampaign`:
`targetingTemplates.create` is local (the deprecation stub) and issues no
network call; only a resolved successful response with a payload would be
collected — the stub never produces one. -/
def createFullTTLoop (advertiser_id : ℚ) : List TTOpts → Except JsError (List TTObj)
  | [] => .ok []
  | tOpts :: rest =>
      let templateData : TTObj := {
        advertiser_id := some advertiser_id
        targeting_template_name := tOpts.targeting_template_name
        targeting := tOpts.targeting
        active := some true }
      match TargetingTemplateResource.create (τ := TTObj) templateData with
      | .error e => .error e
      | .ok r =>
          let pushed := if r.success && r.payload.isSome then r.payload.toList else []
          match createFullTTLoop advertiser_id rest with
          | .error e => .error e
          | .ok more => .ok (pushed ++ more)

/-- The creative loop of `createFullCampaign`, for one created line item:
a provided asset URL is uploaded best-effort (a thrown upload is caught
and the creative proceeds without the asset); the creative is created
(inactive); an unsuccessful creation is skipped; the creative is collected
and then, when both ids are truthy, the association (weighting 100,
active) is created and collected if successful. -/
def createFullCreativeLoop (env : Env) (advertiser_id : ℚ) (lineItem : LineItemObj) :
    List CreativeOpts → Nat → Step (List CreativeObj × List CLIObj)
  | [], t => (.ok ([], []), t, [])
  | c :: rest, t =>
      let assetStep : Option ℚ × Nat × Trace :=
        if strTruthy c.asset_url then
          match uploadCreativeAssetCall env t advertiser_id (c.asset_url.getD "")
              c.creative_name with
          | (.error _, t1, tr1) => (none, t1, tr1)
          | (.ok asset, t1, tr1) => (asset.creative_asset_id, t1, tr1)
        else (none, t, [])
      match assetStep with
      | (creativeAssetId, t1, tr1) =>
          let creativeData : CreativeObj := {
            advertiser_id := some advertiser_id
            name := jsOrStr c.name c.creative_name
            type := some (JsVal.str (jsOrStrD c.type (jsOrStrD c.creative_type "display")))
            creative_template_id := some (jsOrNumD c.creative_template_id 1)
            width := c.width
            height := c.height
            click_url := some (jsOrStrD c.click_url "https://example.com")
            secure := some true
            active := some false }
          let creativeData := if c.attributes.isSome || c.creative_attributes.isSome then
              { creativeData with attributes :=
                  if c.attributes.isSome then c.attributes else c.creative_attributes }
            else creativeData
          let creativeData := if numTruthy creativeAssetId then
              { creativeData with creative_asset_id := creativeAssetId }
            else creativeData
          match creativesCreate env t1 creativeData with
          | (.error e, t2, tr2) => (.error e, t2, tr1 ++ tr2)
          | (.ok cResp, t2, tr2) =>
              match cResp.success, cResp.payload with
              | true, some creative =>
                  let cliStep : Step (List CLIObj) :=
                    if !(numTruthy creative.creative_id) ||
                        !(numTruthy lineItem.line_item_id) then
                      (.ok [], t2, [])
                    else
                      let cliData : CLIObj := {
                        creative_id := creative.creative_id
                        line_item_id := lineItem.line_item_id
                        active := some true
                        weighting := some 100 }
                      match creativeLineItemsCreate env t2 cliData with
                      | (.error e, t3, tr3) => (.error e, t3, tr3)
                      | (.ok cliResp, t3, tr3) =>
                          let pushed := if cliResp.success && cliResp.payload.isSome then
                              cliResp.payload.toList
                            else []
                          (.ok pushed, t3, tr3)
                  match cliStep with
                  | (.error e, t3, tr3) => (.error e, t3, tr1 ++ tr2 ++ tr3)
                  | (.ok clis, t3, tr3) =>
                      match createFullCreativeLoop env advertiser_id lineItem rest t3 with
                      | (.error e, t4, tr4) => (.error e, t4, tr1 ++ tr2 ++ tr3 ++ tr4)
                      | (.ok (cs, cls), t4, tr4) =>
                          (.ok (creative :: cs, clis ++ cls), t4, tr1 ++ tr2 ++ tr3 ++ tr4)
              | _, _ =>
                  match createFullCreativeLoop env advertiser_id lineItem rest t2 with
                  | (res, t3, tr3) => (res, t3, tr1 ++ tr2 ++ tr3)

/-- The line-item loop of `createFullCampaign`: each line item goes
through `createLineItem` (inactive until creatives attach); an
unsuccessful response skips to the next item; a successful one is
collected and its creatives are processed. A thrown `createLineItem` is
not caught here — it aborts the body (and is converted at the top). -/
def createFullLineItemLoop (env : Env) (advertiser_id : ℚ) (campaignId : ℚ) :
    List LineItemOpts → Nat → Step (List LineItemObj × List CreativeObj × List CLIObj)
  | [], t => (.ok ([], [], []), t, [])
  | li :: rest, t =>
      let params : CreateLineItemParams := {
        campaign_id := campaignId
        name := jsOrStr li.name li.line_item_name
        type := some (jsOrStrD li.type "banner")
        guaranteed := some (boolTruthy li.guaranteed)
        currency := some (jsOrStrD li.currency "USD")
        budget_type := some (jsOrStrD li.budget_type "spend including vendor fees")
        spend_budget := some (li.spend_budget.getD
          { lifetime := some (jsNumToString
              (jsOrNumD li.budget (jsOrNumD li.line_item_budget 0)))
            include_fees := some true })
        bidding := some (li.bidding.getD
          { strategy := some "CPM", cpm_bid := some (jsOrNumD li.bid_price 3)
            pacing := some "none", custom := some false
            bid_shading_control := some "normal" })
        frequency_caps := li.frequency_caps
        targeting := li.targeting
        targeting_expression_id := li.targeting_expression_id
        start_date := li.start_date
        end_date := li.end_date
        active := some (boolTruthy li.active) }
      match createLineItem env t params with
      | (.error e, t1, tr1) => (.error e, t1, tr1)
      | (.ok liResp, t1, tr1) =>
          match liResp.success, liResp.payload with
          | true, some lineItem =>
              let creStep : Step (List CreativeObj × List CLIObj) :=
                match li.creatives with
                | some cs => createFullCreativeLoop env advertiser_id lineItem cs t1
                | none => (.ok ([], []), t1, [])
              match creStep with
              | (.error e, t2, tr2) => (.error e, t2, tr1 ++ tr2)
              | (.ok (creatives, clis), t2, tr2) =>
                  match createFullLineItemLoop env advertiser_id campaignId rest t2 with
                  | (.error e, t3, tr3) => (.error e, t3, tr1 ++ tr2 ++ tr3)
                  | (.ok (lis, cs', cls'), t3, tr3) =>
                      (.ok (lineItem :: lis, creatives ++ cs', clis ++ cls'),
                       t3, tr1 ++ tr2 ++ tr3)
          | _, _ =>
              match createFullLineItemLoop env advertiser_id campaignId rest t1 with
              | (res, t2, tr2) => (res, t2, tr1 ++ tr2)

/-- The try-block body of `createFullCampaign`: create the campaign
(inactive; a failed creation or a missing id throws), run the
targeting-template loop, then the line-item loop, and aggregate every
successfully created sub-entity. -/
def createFullCampaignBody (opts : CampaignOpts) (env : Env) : Step (BResponse FullResp) :=
  let campaignData : CampaignObj := {
    advertiser_id := some opts.advertiser_id
    name := jsOrStr opts.name opts.campaign_name
    budget := jsOrNum opts.budget opts.campaign_budget
    budget_type := some (jsOrNumD opts.budget_type 2)
    start_date := opts.start_date
    end_date := opts.end_date
    active := some false }
  match campaignsCreate env 0 campaignData with
  | (.error e, t, tr) => (.error e, t, tr)
  | (.ok resp, t, tr) =>
      match resp.success, resp.payload with
      | true, some campaign =>
          if !(numTruthy campaign.campaign_id) then
            (.error (mkError "Campaign ID not returned from API"), t, tr)
          else
            let ttRes :=
              match opts.targeting_templates with
              | some ts => createFullTTLoop opts.advertiser_id ts
              | none => .ok []
            match ttRes with
            | .error e => (.error e, t, tr)
            | .ok tts =>
                match createFullLineItemLoop env opts.advertiser_id
                    (campaign.campaign_id.getD 0) opts.line_items t with
                | (.error e, t', tr') => (.error e, t', tr ++ tr')
                | (.ok (lis, cs, cls), t', tr') =>
                    (.ok { success := true
                           payload := some { campaign := campaign
                                             line_items := lis
                                             creatives := cs
                                             creative_line_items := cls
                                             targeting_templates := tts } },
                     t', tr ++ tr')
      | _, _ => (.error (mkError "Failed to create campaign"), t, tr)

/-- `CampaignMacros.createFullCampaign`: the body inside try/catch — a
thrown error becomes the structured `{success: false, message, errors}`
failure. -/
def createFullCampaign (opts : CampaignOpts) (env : Env) :
    JsPromise (BResponse FullResp) × Nat × Trace :=
  match createFullCampaignBody opts env with
  | (.ok r, t, tr) => (.ok r, t, tr)
  | (.error e, t, tr) =>
      (.ok { success := false
             message := some (jsOrStrD (some e.message) "Failed to create full campaign")
             errors := some [e.json] }, t, tr)

/-! ## A concrete clone scenario

A server with one source campaign (id 1, named Original, budget `B`,
carrying server-owned audit fields) holding one line item (id 11, budget
`b`, with server-owned fields of its own); creating the clone returns
campaign id 2, creating the cloned line item returns id 21, and the
association query returns no associations. -/

/-- The source campaign of the clone scenario. -/
def cloneOrigW (B : ℚ) : CampaignObj :=
  { campaign_id := some 1, advertiser_id := some 7, campaign_name := some "Original"
    campaign_budget := some B, budget_type := some 2
    created_date := some "2024-01-01", campaign_spend := some 123 }

/-- The source line item of the clone scenario. -/
def cloneSrcLiW (b : ℚ) : LineItemObj :=
  { line_item_id := some 11, campaign_id := some 1, line_item_name := some "LI 1"
    line_item_budget := some b, line_item_spend := some 50
    created_date := some "2024-01-02" }

/-- The campaign the server returns for the clone's creation (fresh id 2). -/
def cloneNewCampaignW : CampaignObj :=
  { campaign_id := some 2, advertiser_id := some 7 }

/-- The v2 object the server returns for the cloned line item (fresh id 21). -/
def cloneNewLiW : LineItemObj :=
  { id := some 21, campaign_id := some 2 }

/-- The oracle of the clone scenario. -/
def cloneEnvW (B b : ℚ) : Env := fun t =>
  match t with
  | 0 => .campaignResp { success := true, payload := some (cloneOrigW B) }
  | 1 => .campaignResp { success := true, payload := some cloneNewCampaignW }
  | 2 => .lineItemListResp { success := true, payload := some [cloneSrcLiW b] }
  | 3 => .v2Resp (.direct cloneNewLiW)
  | _ => .cliListResp { success := true, payload := some [] }

end Beeswax

namespace Beeswax

/-! ### Theorems: single-flight authentication and handle clearing -/

/-- Helper: calls made while an attempt is in flight change nothing and all
receive the stored handle. -/
theorem runAuthCalls_inflight (p : Nat) :
    ∀ (n : Nat) (s : AuthState), s.authPromise = some p →
      runAuthCalls s n = (s, List.replicate n p) := by
  intro n
  induction n with
  | zero => intro s _; simp [runAuthCalls]
  | succ k ih =>
      intro s hs
      simp only [runAuthCalls, authenticateCall, hs, List.replicate]
      rw [ih s hs]

/-- C2: if `authenticate()` is called while a previous `authenticate()` is
still in flight, the caller receives the same in-flight attempt rather
than starting a new one: for any `n ≥ 1` concurrent `authenticate()` calls
made before the first settles, exactly one `POST /rest/authenticate`
network call occurs, and every caller holds the same attempt handle. -/
theorem single_flight_auth (n : Nat) (hn : 1 ≤ n) :
    (runAuthCalls AuthState.start n).1.loginCalls = 1 ∧
      (runAuthCalls AuthState.start n).2 = List.replicate n 0 := by
  obtain ⟨k, rfl⟩ : ∃ k, n = k + 1 := ⟨n - 1, (Nat.succ_pred_eq_of_pos hn).symm⟩
  have hstep : authenticateCall AuthState.start =
      ({ authPromise := some 0, loginCalls := 1, nextHandle := 1 }, 0) := rfl
  simp only [runAuthCalls, hstep]
  rw [runAuthCalls_inflight 0 k _ rfl]
  simp [List.replicate]

/-- Witness for C2 at `n = 3`. -/
theorem single_flight_auth_witness :
    (runAuthCalls AuthState.start 3).1.loginCalls = 1 ∧
      (runAuthCalls AuthState.start 3).2 = List.replicate 3 0 :=
  single_flight_auth 3 (by decide)

/-- C10: after an `authenticate()` attempt settles — whether it resolved
(`ok = true`) or rejected (`ok = false`) — the stored in-flight handle
`authPromise` is cleared back to `undefined`, so a subsequent
`authenticate()` starts a fresh login attempt (one more login network
call, storing a fresh handle); a failed authentication never permanently
blocks later attempts. -/
theorem auth_handle_cleared_on_settle (s : AuthState) (ok : Bool) :
    (authenticateSettle s ok).authPromise = none ∧
      (authenticateCall (authenticateSettle s ok)).1.loginCalls = s.loginCalls + 1 ∧
      (authenticateCall (authenticateSettle s ok)).1.authPromise = some s.nextHandle := by
  refine ⟨rfl, ?_, ?_⟩ <;> simp [authenticateSettle, authenticateCall]

/-- C3: a request failing with HTTP 401 triggers exactly one fresh
`authenticate()` and exactly one replay; the replay's outcome — success or
any failure, a second 401 included — is surfaced to the caller, and no
further re-authentication or replay happens (two attempts total). -/
theorem unauthorized_retry_once (α : Type) (outcomes : Nat → HttpOutcome α) (b : α)
    (h : outcomes 0 = .err 401 b) :
    (runRequest outcomes).authCalls = 1 ∧
      (runRequest outcomes).attempts = 2 ∧
      (∀ d, outcomes 1 = .ok d → (runRequest outcomes).result = .ok d) ∧
      (∀ st b', outcomes 1 = .err st b' → (runRequest outcomes).result = .error (st, b')) := by
  refine ⟨?_, ?_, ?_, ?_⟩ <;>
    simp only [runRequest, h, if_pos rfl] <;>
    cases h1 : outcomes 1 <;>
    simp_all [attemptRetried]

/-- Witness for C3: first attempt 401, replay also 401 — one auth call,
two attempts, the second 401 surfaced. -/
theorem unauthorized_retry_once_witness :
    (runRequest (fun i => if i = 0 then HttpOutcome.err 401 "a"
        else HttpOutcome.err 401 "b")).authCalls = 1 ∧
      (runRequest (fun i => if i = 0 then HttpOutcome.err 401 "a"
        else HttpOutcome.err 401 "b")).attempts = 2 ∧
      (runRequest (fun i => if i = 0 then HttpOutcome.err 401 "a"
        else HttpOutcome.err 401 "b")).result = .error (401, "b") := by
  have h := unauthorized_retry_once String
    (fun i => if i = 0 then HttpOutcome.err 401 "a" else HttpOutcome.err 401 "b") "a" rfl
  exact ⟨h.1, h.2.1, h.2.2.2 401 "b" rfl⟩

/-! ### Theorems: queryAll pagination -/

/-- Helper: if the pages at offsets `offset, offset+50, …, offset+50*(n-1)`
are full and the page at `offset+50*n` is short, the loop issues exactly
those `n+1` requests and returns the pages' concatenation. -/
theorem queryAllLoop_pages {α : Type} (server : Nat → List α) (idField : String) :
    ∀ (n offset fuel : Nat), n + 1 ≤ fuel →
      (∀ i, i < n → ¬ (server (offset + batchSize * i)).length < batchSize) →
      (server (offset + batchSize * n)).length < batchSize →
      queryAllLoop server idField fuel offset =
        some ((List.range (n + 1)).map
                (fun i => { rows := batchSize, offset := offset + batchSize * i,
                            sort_by := idField }),
              ((List.range (n + 1)).map (fun i => server (offset + batchSize * i))).flatten) := by
  intro n
  induction n with
  | zero =>
      intro offset fuel hf _ hshort
      obtain ⟨f, rfl⟩ : ∃ f, fuel = f + 1 := ⟨fuel - 1, (Nat.succ_pred_eq_of_pos hf).symm⟩
      simp only [queryAllLoop]
      rw [if_pos (by simpa using hshort)]
      simp [List.range_succ]
  | succ k ih =>
      intro offset fuel hf hfull hshort
      obtain ⟨f, rfl⟩ : ∃ f, fuel = f + 1 :=
        ⟨fuel - 1, (Nat.succ_pred_eq_of_pos (Nat.lt_of_lt_of_le (Nat.succ_pos _) hf)).symm⟩
      have h0 : ¬ (server (offset + batchSize * 0)).length < batchSize :=
        hfull 0 (Nat.succ_pos k)
      simp only [queryAllLoop]
      rw [if_neg (by simpa using h0)]
      rw [ih (offset + batchSize) f (Nat.succ_le_succ_iff.mp hf)
            (fun i hi => by
              have := hfull (i + 1) (Nat.succ_lt_succ hi)
              have harith : offset + batchSize * (i + 1) = offset + batchSize + batchSize * i := by
                ring
              rwa [harith] at this)
            (by
              have harith : offset + batchSize * (k + 1) = offset + batchSize + batchSize * k := by
                ring
              rwa [harith] at hshort)]
      have hreq : (List.range (k + 1 + 1)).map
            (fun i => PageRequest.mk batchSize (offset + batchSize * i) idField) =
          { rows := batchSize, offset := offset, sort_by := idField } ::
            (List.range (k + 1)).map
              (fun i => PageRequest.mk batchSize (offset + batchSize + batchSize * i) idField) := by
        rw [List.range_succ_eq_map, List.map_cons, List.map_map]
        refine congrArg₂ _ (by simp) (List.map_congr_left (fun i _ => ?_))
        simp only [Function.comp]
        congr 1
        simp only [Nat.succ_eq_add_one]
        ring
      have hpay : (List.range (k + 1 + 1)).map (fun i => server (offset + batchSize * i)) =
          server offset ::
            (List.range (k + 1)).map (fun i => server (offset + batchSize + batchSize * i)) := by
        rw [List.range_succ_eq_map, List.map_cons, List.map_map]
        refine congrArg₂ _ (by simp) (List.map_congr_left (fun i _ => ?_))
        simp only [Function.comp]
        congr 1
        simp only [Nat.succ_eq_add_one]
        ring
      rw [hreq, hpay]
      simp

/-- Helper: a list of length `50 * k`, cut into `k + 1` consecutive
50-record slices (the last one empty), concatenates back to itself. -/
theorem join_take_drop {α : Type} :
    ∀ (k : Nat) (l : List α), l.length = batchSize * k →
      ((List.range (k + 1)).map (fun i => (l.drop (batchSize * i)).take batchSize)).flatten
        = l := by
  intro k
  induction k with
  | zero =>
      intro l hl
      have : l = [] := List.eq_nil_of_length_eq_zero (by simpa using hl)
      subst this
      simp
  | succ k ih =>
      intro l hl
      rw [List.range_succ_eq_map, List.map_cons, List.map_map]
      have hslice : ∀ i : Nat,
          (l.drop (batchSize * (i + 1))).take batchSize =
            ((l.drop batchSize).drop (batchSize * i)).take batchSize := by
        intro i
        rw [List.drop_drop]
        congr 1
        ring
      have hmap : (List.range (k + 1)).map
            ((fun i => (l.drop (batchSize * i)).take batchSize) ∘ Nat.succ) =
          (List.range (k + 1)).map
            (fun i => ((l.drop batchSize).drop (batchSize * i)).take batchSize) := by
        refine List.map_congr_left (fun i _ => ?_)
        simp only [Function.comp, Nat.succ_eq_add_one]
        exact hslice i
      rw [hmap]
      have hlen : (l.drop batchSize).length = batchSize * k := by
        simp only [List.length_drop, hl]
        ring_nf
        omega
      rw [List.flatten_cons, ih (l.drop batchSize) hlen]
      simpa using List.take_append_drop batchSize l

/-- C4: `queryAll` requests pages of fixed size 50, sorted by the
resource's identity field, at offsets `0, 50, 100, …`; it accumulates the
pages in order and returns `{success: true}` with the concatenation of all
pages up to and including the first page holding fewer than 50 records,
then stops. Second conjunct: a resource holding exactly `50 * k` records
(served as consecutive 50-record slices) returns all `50 * k` records,
requesting `k + 1` pages — the final one empty. -/
theorem queryAll_pagination :
    (∀ (α : Type) (server : Nat → List α) (idField : String) (n fuel : Nat),
        n + 1 ≤ fuel →
        (∀ i, i < n → ¬ (server (batchSize * i)).length < batchSize) →
        (server (batchSize * n)).length < batchSize →
        queryAll server idField fuel =
          some ((List.range (n + 1)).map
                  (fun i => { rows := batchSize, offset := batchSize * i, sort_by := idField }),
                { success := true,
                  payload :=
                    some (((List.range (n + 1)).map
                            (fun i => server (batchSize * i))).flatten) })) ∧
    (∀ (α : Type) (all : List α) (idField : String) (k : Nat),
        all.length = batchSize * k →
        queryAll (fun off => (all.drop off).take batchSize) idField (k + 1) =
          some ((List.range (k + 1)).map
                  (fun i => { rows := batchSize, offset := batchSize * i, sort_by := idField }),
                { success := true, payload := some all })) := by
  constructor
  · intro α server idField n fuel hf hfull hshort
    have h := queryAllLoop_pages server idField n 0 fuel hf
      (by simpa using hfull) (by simpa using hshort)
    simp only [Nat.zero_add] at h
    simp [queryAll, h]
  · intro α all idField k hk
    have hfull : ∀ i, i < k →
        ¬ ((fun off => (all.drop off).take batchSize) (batchSize * i)).length < batchSize := by
      intro i hi
      simp only [List.length_take, List.length_drop, hk, not_lt]
      have : batchSize * i + batchSize ≤ batchSize * k :=
        by calc batchSize * i + batchSize = batchSize * (i + 1) := by ring
          _ ≤ batchSize * k := Nat.mul_le_mul_left _ (Nat.succ_le_of_lt hi)
      omega
    have hshort : ((fun off => (all.drop off).take batchSize) (batchSize * k)).length
        < batchSize := by
      simp only [List.length_take, List.length_drop, hk]
      simp [batchSize]
    have h := queryAllLoop_pages (fun off => (all.drop off).take batchSize) idField k 0 (k + 1)
      (Nat.le_refl _) (by simpa using hfull) (by simpa using hshort)
    simp only [Nat.zero_add] at h
    have hj := join_take_drop k all hk
    simp [queryAll, h, hj]

/-- Witness for C4: a server with no records (one short page at offset 0),
and an ideal 50-record resource (`k = 1`: two pages, the second empty). -/
theorem queryAll_pagination_witness :
    queryAll (fun _ => ([] : List Nat)) "campaign_id" 1 =
      some ([{ rows := batchSize, offset := 0, sort_by := "campaign_id" }],
            { success := true, payload := some [] }) ∧
    queryAll (fun off => ((List.range 50).drop off).take batchSize) "campaign_id" 2 =
      some ((List.range 2).map
              (fun i => { rows := batchSize, offset := batchSize * i, sort_by := "campaign_id" }),
            { success := true, payload := some (List.range 50) }) := by
  constructor
  · have h := queryAll_pagination.1 Nat (fun _ => []) "campaign_id" 0 1 (Nat.le_refl _)
      (fun i hi => absurd hi (Nat.not_lt_zero i)) (by simp [batchSize])
    simpa using h
  · exact queryAll_pagination.2 Nat (List.range 50) "campaign_id" 1 (by simp [batchSize])

/-! ### Theorems: find -/

/-- C5 counterexample: with the server resolving an empty result set,
`find` resolves with `{success: true, payload: undefined}` — its `success`
field is `true`, not the `success: false` NotFoundError-shaped response
the claim asserts. -/
theorem find_empty_counterexample :
    BaseResource.find "/rest/campaign" "campaign_id" (667 : Nat)
        (fun _ _ => .ok { success := true, payload := some ([] : List Nat) }) =
      .ok { success := true, payload := none } ∧
    ∀ r : BResponse Nat,
      BaseResource.find "/rest/campaign" "campaign_id" (667 : Nat)
          (fun _ _ => .ok { success := true, payload := some ([] : List Nat) }) = .ok r →
      r.success = true := by
  refine ⟨rfl, fun r h => ?_⟩
  have h' : ({ success := true, payload := none } : BResponse Nat) = r := by
    injection h
  rw [← h']

/-- C5 amended: `find(id)` issues one GET whose body is `{[idField]: id}`
and resolves with `{success: true, payload: first record of the response}`;
when the server's result set is empty it resolves (does not throw) with
`success: true` and an absent payload — callers detect not-found by the
missing payload, not by a `success: false` response. -/
theorem find_first_record (ι τ : Type) (ep idF : String) (id : ι)
    (env : String → List (String × ι) → JsPromise (BResponse (List τ)))
    (resp : BResponse (List τ)) (h : env ep [(idF, id)] = .ok resp) :
    BaseResource.find ep idF id env =
      .ok { success := true, payload := (resp.payload.getD []).head? } ∧
    (resp.payload = some [] →
      BaseResource.find ep idF id env = .ok { success := true, payload := none }) := by
  constructor
  · simp [BaseResource.find, h]
  · intro hp
    simp [BaseResource.find, h, hp]

/-- Witness for C5 (amended): a two-record result set yields the first
record; an empty one yields `success: true` with no payload. -/
theorem find_first_record_witness :
    BaseResource.find "/rest/campaign" "campaign_id" (667 : Nat)
        (fun _ _ => .ok { success := true, payload := some [41, 42] }) =
      .ok { success := true, payload := some (41 : Nat) } := by
  have h := find_first_record Nat Nat "/rest/campaign" "campaign_id" 667
    (fun _ _ => .ok { success := true, payload := some [41, 42] })
    { success := true, payload := some [41, 42] } rfl
  simpa using h.1

/-! ### Theorems: targeting-template deprecation -/

/-- C9: targeting-template `create` always resolves (never throws) with the
structured deprecation response `{success: false, code: 410}` carrying the
deprecation message, for every body; and targeting-template `query`, when
the underlying request throws, resolves with
`{success: true, payload: []}` (best-effort empty result) instead of
throwing. -/
theorem targeting_template_behaviour :
    (∀ (β τ : Type) (body : β),
        TargetingTemplateResource.create (τ := τ) body =
          .ok { success := false, message := some ttDeprecationMessage, code := some 410 }) ∧
    (∀ (τ : Type) (e : JsError),
        TargetingTemplateResource.query (τ := τ) (.error e) =
          .ok { success := true, payload := some [],
                message := some ttDeprecationMessage }) := by
  exact ⟨fun _ _ _ => rfl, fun _ _ => rfl⟩

/-! ### Theorems: creative type normalization -/

/-- C7: whenever the effective creative-type value (`creative_type` if
defined, else `type`) is a string, the normalized body carries, under the
canonical `creative_type` key only (the `type` alias deleted), the value of
the case-insensitive table: display and banner map to 0, video to 1,
native to 2, and any string outside the table passes through unchanged. -/
theorem creative_type_string_mapping :
    (∀ (body : CreativeObj) (s : String),
        (match body.creative_type with
         | some v => some v
         | none => body.type) = some (JsVal.str s) →
        (creativeCreateBody body).type = none ∧
        (creativeCreateBody body).creative_type =
          some (match creativeTypeMap (jsToLower s) with
                | some n => JsVal.num n
                | none => JsVal.str s)) ∧
    creativeTypeMap "display" = some 0 ∧ creativeTypeMap "banner" = some 0 ∧
    creativeTypeMap "video" = some 1 ∧ creativeTypeMap "native" = some 2 ∧
    (∀ s : String, s ∉ (["display", "banner", "video", "native"] : List String) →
      creativeTypeMap s = none) := by
  refine ⟨?_, rfl, rfl, rfl, rfl, ?_⟩
  · intro body s h
    constructor <;>
      · simp only [creativeCreateBody, h]
        split <;> simp
  · intro s hs
    simp only [List.mem_cons, List.not_mem_nil, or_false, not_or] at hs
    obtain ⟨h1, h2, h3, h4⟩ := hs
    unfold creativeTypeMap
    split <;> simp_all

/-- Witness for C7: an uppercase string alias under the `type` key maps to
the numeric code 0 under `creative_type`, and `type` is deleted. -/
theorem creative_type_string_mapping_witness :
    (creativeCreateBody { type := some (JsVal.str "DISPLAY") }).type = none ∧
    (creativeCreateBody { type := some (JsVal.str "DISPLAY") }).creative_type =
      some (JsVal.num 0) := by
  have h := creative_type_string_mapping.1 { type := some (JsVal.str "DISPLAY") } "DISPLAY" rfl
  exact ⟨h.1, by rw [h.2]; decide⟩

/-! ### Theorems: bulkUpdateCampaignStatus -/

/-- Helper: the per-item counting step equals an `editSucceeded` test. -/
theorem editStep_eq (o : CallOutcome) (u f : Nat) :
    (match asCampaign o with
     | .ok resp => if resp.success then (u + 1, f) else (u, f + 1)
     | .error _ => (u, f + 1)) =
      (if editSucceeded o then u + 1 else u, if editSucceeded o then f else f + 1) := by
  cases o <;> simp [asCampaign, editSucceeded]
  case campaignResp r =>
    obtain ⟨s, p, c, m, er⟩ := r
    cases s <;> simp

/-- Helper: splitting a shifted `countP` over `range (n + 1)`. -/
theorem countP_range_shift (p : Nat → Bool) (n t : Nat) :
    (List.range (n + 1)).countP (fun j => p (t + j)) =
      (if p t then 1 else 0) + (List.range n).countP (fun j => p (t + 1 + j)) := by
  rw [List.range_succ_eq_map, List.countP_cons, List.countP_map]
  have hc : (List.range n).countP ((fun j => p (t + j)) ∘ Nat.succ) =
      (List.range n).countP (fun j => p (t + 1 + j)) := by
    refine List.countP_congr (fun x _ => ?_)
    have harith : t + x.succ = t + 1 + x := by omega
    simp [Function.comp, harith]
  rw [hc]
  simp [Nat.add_comm]

/-- Helper: what the id loop of `bulkUpdateCampaignStatus` computes, for
any starting counters and tick. -/
theorem bulkUpdateLoop_spec (env : Env) (active : Bool) :
    ∀ (ids : List ℚ) (u f t : Nat),
      bulkUpdateLoop env active ids u f t =
        ((u + (List.range ids.length).countP (fun j => editSucceeded (env (t + j))),
          f + (List.range ids.length).countP (fun j => !(editSucceeded (env (t + j))))),
         t + ids.length,
         ids.map (fun id => CallRecord.campaignEdit id active)) := by
  intro ids
  induction ids with
  | nil => intro u f t; simp [bulkUpdateLoop]
  | cons id rest ih =>
      intro u f t
      simp only [bulkUpdateLoop, editStep_eq]
      rw [ih]
      refine congrArg₂ _ (congrArg₂ _ ?_ ?_) (congrArg₂ _ (by simp; omega) rfl)
      · rw [List.length_cons, countP_range_shift (fun j => editSucceeded (env j)) rest.length t]
        cases hs : editSucceeded (env t) <;> simp [hs] <;> omega
      · rw [List.length_cons,
          countP_range_shift (fun j => !(editSucceeded (env j))) rest.length t]
        cases hs : editSucceeded (env t) <;> simp [hs] <;> omega

/-- C8: `bulkUpdateCampaignStatus(ids, active)` edits every id in input
order (one `campaigns.edit(id, {active})` per id, never stopping on a
per-item failure), and always resolves to
`{success: true, payload: {updated, failed}}` where `updated` counts the
edits whose outcome was a resolved successful response, `failed` counts
every other outcome (unsuccessful response or thrown error), and
`updated + failed` equals the number of input ids. -/
theorem bulk_update_campaign_status (ids : List ℚ) (active : Bool) (env : Env) :
    (bulkUpdateCampaignStatus ids active env).1 =
      .ok { success := true,
            payload := some
              ((List.range ids.length).countP (fun j => editSucceeded (env j)),
               (List.range ids.length).countP (fun j => !(editSucceeded (env j)))) } ∧
    (bulkUpdateCampaignStatus ids active env).2.2 =
      ids.map (fun id => CallRecord.campaignEdit id active) ∧
    (List.range ids.length).countP (fun j => editSucceeded (env j)) +
        (List.range ids.length).countP (fun j => !(editSucceeded (env j))) =
      ids.length := by
  have h := bulkUpdateLoop_spec env active ids 0 0 0
  simp only [Nat.zero_add] at h
  refine ⟨?_, ?_, ?_⟩
  · simp [bulkUpdateCampaignStatus, h]
  · simp [bulkUpdateCampaignStatus, h]
  · have hl := List.length_eq_countP_add_countP
      (fun j => editSucceeded (env j)) (List.range ids.length)
    simp only [List.length_range] at hl
    have hconv : (List.range ids.length).countP (fun j => !(editSucceeded (env j))) =
        (List.range ids.length).countP (fun a => decide ¬(editSucceeded (env a) = true)) :=
      List.countP_congr (fun x _ => by simp)
    rw [hconv]
    exact hl.symm

/-! ### Theorems: macro resolution (never rejecting) -/

/-- C1 counterexample: `bulkCreateLineItems` rejects — the awaited macro
does not resolve — when the initial `campaigns.find` throws, because that
lookup is outside any try/catch. -/
theorem bulkCreateLineItems_rejects :
    (bulkCreateLineItems 1 []
        (fun _ => CallOutcome.threw (mkError "network down"))).1 =
      .error (mkError "network down") := rfl

/-- C1 amended: `createFullCampaign`, `cloneCampaign`,
`bulkUpdateCampaignStatus` and `getCampaignPerformance` always resolve —
never reject — whatever the outcomes of the underlying calls, any thrown
error being converted to the structured `{success: false, message, errors}`
response (last two conjuncts); `bulkCreateLineItems` resolves whenever its
initial `campaigns.find` resolves (per-item errors are caught), but that
one lookup is outside the try/catch, so its rejection propagates. -/
theorem macro_resolution :
    (∀ (opts : CampaignOpts) (env : Env),
        ∃ r, (createFullCampaign opts env).1 = .ok r) ∧
    (∀ (cid : ℚ) (nn : String) (o : CloneOpts) (env : Env),
        ∃ r, (cloneCampaign cid nn o env).1 = .ok r) ∧
    (∀ (ids : List ℚ) (a : Bool) (env : Env),
        ∃ r, (bulkUpdateCampaignStatus ids a env).1 = .ok r) ∧
    (∀ (cid : ℚ) (sd ed : String) (env : Env),
        ∃ r, (getCampaignPerformance cid sd ed env).1 = .ok r) ∧
    (∀ (cid : ℚ) (items : List BulkLineItemSpec) (env : Env)
        (r0 : BResponse CampaignObj), env 0 = .campaignResp r0 →
        ∃ r, (bulkCreateLineItems cid items env).1 = .ok r) ∧
    (∀ (opts : CampaignOpts) (env : Env) (e : JsError),
        (createFullCampaignBody opts env).1 = .error e →
        (createFullCampaign opts env).1 =
          .ok { success := false
                message := some (jsOrStrD (some e.message) "Failed to create full campaign")
                errors := some [e.json] }) ∧
    (∀ (cid : ℚ) (nn : String) (o : CloneOpts) (env : Env) (e : JsError),
        (cloneCampaignBody cid nn o env).1 = .error e →
        (cloneCampaign cid nn o env).1 =
          .ok { success := false
                message := some (jsOrStrD (some e.message) "Failed to clone campaign")
                errors := some [e.json] }) := by
  refine ⟨?_, ?_, ?_, ?_, ?_, ?_, ?_⟩
  · intro opts env
    rcases hb : createFullCampaignBody opts env with ⟨res, t, tr⟩
    cases res with
    | ok r => exact ⟨r, by simp [createFullCampaign, hb]⟩
    | error e =>
        exact ⟨{ success := false
                 message := some (jsOrStrD (some e.message) "Failed to create full campaign")
                 errors := some [e.json] }, by simp [createFullCampaign, hb]⟩
  · intro cid nn o env
    rcases hb : cloneCampaignBody cid nn o env with ⟨res, t, tr⟩
    cases res with
    | ok r => exact ⟨r, by simp [cloneCampaign, hb]⟩
    | error e =>
        exact ⟨{ success := false
                 message := some (jsOrStrD (some e.message) "Failed to clone campaign")
                 errors := some [e.json] }, by simp [cloneCampaign, hb]⟩
  · intro ids a env
    rcases hb : bulkUpdateLoop env a ids 0 0 0 with ⟨⟨u, f⟩, t, tr⟩
    exact ⟨{ success := true, payload := some (u, f) },
      by simp [bulkUpdateCampaignStatus, hb]⟩
  · intro cid sd ed env
    cases hr : asReport (env 0) with
    | ok r => exact ⟨r, by simp [getCampaignPerformance, reportsCreate, remoteCall, hr]⟩
    | error e =>
        exact ⟨{ success := false
                 message := some (jsOrStrD (some e.message) "Failed to get campaign performance")
                 errors := some [e.toStr] },
          by simp [getCampaignPerformance, reportsCreate, remoteCall, hr]⟩
  · intro cid items env r0 h0
    rcases hb : bulkCreateLoop env cid items 1 [] [] with ⟨⟨created, errs⟩, t', tr'⟩
    by_cases hs : (r0.success && r0.payload.isSome) = true
    · exact ⟨{ success := errs.isEmpty, payload := some created
               errors := if errs.isEmpty then none else some errs }, by
        simp [bulkCreateLineItems, campaignsFind, remoteCall, h0, asCampaign, hs, hb]⟩
    · exact ⟨{ success := false, message := some "Campaign not found" }, by
        simp [bulkCreateLineItems, campaignsFind, remoteCall, h0, asCampaign, hs]⟩
  · intro opts env e h
    rcases hb : createFullCampaignBody opts env with ⟨res, t, tr⟩
    rw [hb] at h
    simp only at h
    subst h
    simp [createFullCampaign, hb]
  · intro cid nn o env e h
    rcases hb : cloneCampaignBody cid nn o env with ⟨res, t, tr⟩
    rw [hb] at h
    simp only at h
    subst h
    simp [cloneCampaign, hb]

/-- Witness for C1 (amended): a resolving campaign lookup makes
`bulkCreateLineItems` resolve, and a thrown campaign creation inside
`createFullCampaign` is converted to the structured failure. -/
theorem macro_resolution_witness :
    (∃ r, (bulkCreateLineItems 1 []
        (fun _ => CallOutcome.campaignResp { success := true })).1 = .ok r) ∧
    (createFullCampaign { advertiser_id := 7 }
        (fun _ => CallOutcome.threw (mkError "boom"))).1 =
      .ok { success := false
            message := some (jsOrStrD (some (mkError "boom").message)
              "Failed to create full campaign")
            errors := some [(mkError "boom").json] } := by
  constructor
  · exact macro_resolution.2.2.2.2.1 1 [] _ { success := true } rfl
  · exact macro_resolution.2.2.2.2.2.1 { advertiser_id := 7 } _ (mkError "boom") rfl

/-! ### Theorems: the clone scenario -/

/-- C6: in the clone scenario, `cloneCampaign(1, "Cloned Campaign",
{budget_multiplier: 2})` sends a campaign body whose budget is the
source's budget times the multiplier and line-item bodies whose budgets
are the source line item's budget times the multiplier, under the fresh
campaign id 2 with the server-owned fields stripped — but the campaign
body's `campaign_name` is the SOURCE's name, not the provided
`"Cloned Campaign"`: the legacy `campaign_name` alias survives the
read-only strip and `CampaignResource.create` prefers it
(`body.campaign_name || body.name`), so the newName part of the claim
fails on the code. -/
theorem cloneCampaign_newName_bug (B b : ℚ) :
    (cloneCampaign 1 "Cloned Campaign" { budget_multiplier := some 2 }
        (cloneEnvW B b)).2.2 =
      [CallRecord.campaignFind 1,
       CallRecord.campaignCreate
         { advertiser_id := some 7, campaign_name := some "Original"
           campaign_budget := some (B * 2), budget_type := some 2 },
       CallRecord.lineItemsQuery 1,
       CallRecord.lineItemCreateV2
         { campaign_id := some 2, name := some "LI 1", type := some "banner"
           budget := some (b * 2), spend_budget := some v2DefaultSpendBudget },
       CallRecord.cliQuery (some 11)] ∧
    (cloneCampaign 1 "Cloned Campaign" { budget_multiplier := some 2 }
        (cloneEnvW B b)).1 =
      .ok { success := true
            payload := some { campaign := cloneNewCampaignW
                              line_items := [{ cloneNewLiW with line_item_id := some 21 }]
                              creative_line_items := [] } } := by
  constructor <;>
    simp [cloneCampaign, cloneCampaignBody, campaignsFind, campaignsCreate,
      lineItemsQueryCall, lineItemsCreate, creativeLineItemsQuery, cloneLineItemLoop,
      cloneCliLoop, remoteCall, asCampaign, asLineItemList, asV2, asCLIList,
      campaignCreateBody, lineItemCreateBody, lineItemCreateHandleResponse,
      stripCampaignReadOnly, stripLineItemReadOnly, cloneEnvW, cloneOrigW,
      cloneSrcLiW, cloneNewCampaignW, cloneNewLiW, jsOrStr, jsOrStrD, strTruthy,
      numTruthy]

end Beeswax
